import Mathlib

/-!
Verification of the tax/position reconciliation engine of the ir-app
repository (src/services.py with its collaborators in src/database.py).

Modelling conventions.

All monetary arithmetic in the source is Python float (with a stray comment
about Decimal); the embedding uses exact rationals, so statements about
exact amounts (the 20000.00 exemption boundary, fee sums, realized results)
are read over the exact arithmetic the formulas denote.

Python `datetime.date` values are modelled by the `Data` structure below
together with `Data.ordinal`, the proleptic-Gregorian day count that Python
exposes as `date.toordinal`; comparison of valid dates coincides with
comparison of their ordinals, and `%Y-%m` / ISO-format string keys used by
the source for grouping and sorting order exactly like the corresponding
(year, month) and ordinal keys, because the string pieces are zero padded.

Database access (`obter_todas_operacoes`, `obter_carteira_atual`, ...) is
modelled by passing the rows those calls return as explicit arguments; the
source performs no writes between the reads that matter here, so each read
returns the same rows.
-/

namespace IRApp

/-- Calendar date with year, month and day fields, mirroring Python
dates as used by the source (`op["date"]`). -/
structure Data where
  year : Nat
  month : Nat
  day : Nat
deriving DecidableEq, Repr

/-- Gregorian leap-year rule, as implemented by Python `calendar`. -/
def isLeap (y : Nat) : Bool :=
  y % 4 == 0 && (y % 100 != 0 || y % 400 == 0)

/-- Number of days of month `m` of year `y`, Python `calendar.monthrange(y, m)[1]`. -/
def daysInMonth (y m : Nat) : Nat :=
  if m = 2 then (if isLeap y then 29 else 28)
  else if m = 4 ∨ m = 6 ∨ m = 9 ∨ m = 11 then 30
  else 31

/-- Days contained in the years strictly before year `y` (proleptic Gregorian). -/
def daysBeforeYear (y : Nat) : Nat :=
  365 * (y - 1) + (y - 1) / 4 - (y - 1) / 100 + (y - 1) / 400

/-- Days contained in the months of year `y` strictly before month `m`. -/
def daysBeforeMonth (y m : Nat) : Nat :=
  (List.range (m - 1)).foldl (fun acc i => acc + daysInMonth y (i + 1)) 0

/-- Python `date.toordinal`: 0001-01-01 has ordinal 1. -/
def Data.ordinal (d : Data) : Nat :=
  daysBeforeYear d.year + daysBeforeMonth d.year d.month + d.day

/-- Python `date.weekday`: 0 is Monday, 6 is Sunday (0001-01-01 was a Monday). -/
def Data.diaSemana (d : Data) : Nat :=
  (d.ordinal + 6) % 7

/-- The previous calendar day, Python `d - timedelta(days=1)`. -/
def Data.anterior (d : Data) : Data :=
  if 1 < d.day then { d with day := d.day - 1 }
  else if 1 < d.month then { d with month := d.month - 1, day := daysInMonth d.year (d.month - 1) }
  else { year := d.year - 1, month := 12, day := 31 }

/-- The `while vencimento.weekday() >= 5` loop of services.py:507-508, stepping
back to the nearest weekday.  From a Saturday one step reaches Friday and from a
Sunday two steps do, so the loop runs at most twice and is unrolled here. -/
def ajustarDiaUtil (d : Data) : Data :=
  if 5 ≤ d.diaSemana then
    if 5 ≤ d.anterior.diaSemana then d.anterior.anterior else d.anterior
  else d

/-- Transaction side, the `operation` column ("buy" / "sell"). -/
inductive Side where
  | buy
  | sell
deriving DecidableEq, Repr

/-- One row of the `operacoes` table as the services layer sees it
(dates already converted to date objects, `fees` defaulted to 0). -/
structure Operacao where
  id : Nat
  date : Data
  ticker : String
  operation : Side
  quantity : Nat
  price : ℚ
  fees : ℚ
deriving DecidableEq, Repr

/-- The record built by `_criar_operacao_fechada_detalhada` (services.py:308-355).
The source stores the sum `taxas_total = taxas_abertura + taxas_fechamento`; the
embedding keeps the two prorated parts it computes, and `taxas_total` below
recovers the stored field. -/
structure OperacaoFechada where
  ticker : String
  data_abertura : Data
  data_fechamento : Data
  quantidade : Nat
  valor_compra : ℚ
  valor_venda : ℚ
  resultado : ℚ
  percentual_lucro : ℚ
  day_trade : Bool
  id_operacao_abertura : Nat
  id_operacao_fechamento : Nat
  taxas_abertura : ℚ
  taxas_fechamento : ℚ
deriving DecidableEq, Repr

/-- The `taxas_total` field the source stores on a closed operation. -/
def OperacaoFechada.taxas_total (f : OperacaoFechada) : ℚ :=
  f.taxas_abertura + f.taxas_fechamento

/-- The `tipo_fechamento` argument of `_criar_operacao_fechada_detalhada`. -/
inductive TipoFechamento where
  | compra_fechada_com_venda
  | venda_descoberta_fechada_com_compra
deriving DecidableEq, Repr

/-- services.py:308-355, `_criar_operacao_fechada_detalhada`.  Note that the
fee proration divides by the quantity field the fragment carries at the time
of the match (the source mutates that field as matches consume the fragment). -/
def criar_operacao_fechada_detalhada (op_abertura op_fechamento : Operacao)
    (quantidade_fechada : Nat) (tipo : TipoFechamento) : OperacaoFechada :=
  let taxas_abertura : ℚ :=
    if 0 < op_abertura.quantity then
      op_abertura.fees / (op_abertura.quantity : ℚ) * (quantidade_fechada : ℚ)
    else 0
  let taxas_fechamento : ℚ :=
    if 0 < op_fechamento.quantity then
      op_fechamento.fees / (op_fechamento.quantity : ℚ) * (quantidade_fechada : ℚ)
    else 0
  let valor_total_abertura : ℚ := op_abertura.price * (quantidade_fechada : ℚ)
  let valor_total_fechamento : ℚ := op_fechamento.price * (quantidade_fechada : ℚ)
  match tipo with
  | .compra_fechada_com_venda =>
      let resultado_liquido :=
        valor_total_fechamento - valor_total_abertura - taxas_abertura - taxas_fechamento
      { ticker := op_abertura.ticker
        data_abertura := op_abertura.date
        data_fechamento := op_fechamento.date
        quantidade := quantidade_fechada
        valor_compra := valor_total_abertura
        valor_venda := valor_total_fechamento
        resultado := resultado_liquido
        percentual_lucro :=
          if valor_total_abertura + taxas_abertura ≠ 0 then
            resultado_liquido / (valor_total_abertura + taxas_abertura) * 100
          else 0
        day_trade := op_abertura.date = op_fechamento.date
        id_operacao_abertura := op_abertura.id
        id_operacao_fechamento := op_fechamento.id
        taxas_abertura := taxas_abertura
        taxas_fechamento := taxas_fechamento }
  | .venda_descoberta_fechada_com_compra =>
      let resultado_liquido :=
        valor_total_abertura - valor_total_fechamento - taxas_abertura - taxas_fechamento
      { ticker := op_abertura.ticker
        data_abertura := op_abertura.date
        data_fechamento := op_fechamento.date
        quantidade := quantidade_fechada
        valor_compra := valor_total_fechamento
        valor_venda := valor_total_abertura
        resultado := resultado_liquido
        percentual_lucro :=
          if valor_total_fechamento + taxas_fechamento ≠ 0 then
            resultado_liquido / (valor_total_fechamento + taxas_fechamento) * 100
          else 0
        day_trade := op_abertura.date = op_fechamento.date
        id_operacao_abertura := op_abertura.id
        id_operacao_fechamento := op_fechamento.id
        taxas_abertura := taxas_abertura
        taxas_fechamento := taxas_fechamento }

/-- State of the per-ticker FIFO matching pass of `calcular_operacoes_fechadas`
(services.py:240-299): the two pending queues and the closed operations
accumulated so far. -/
structure MatchState where
  compras_pendentes : List Operacao
  vendas_pendentes : List Operacao
  fechadas : List OperacaoFechada
deriving DecidableEq, Repr

/-- One `while quantidade_atual > 0 and pendentes:` draining loop of
services.py:253-269 / 278-294.  `close p m` builds the closed operation for a
match of `m` shares against the pending fragment `p` (taken with the quantity
it carries when the match is made, exactly as the source reads
`pendente["quantity"]` before decrementing it).  Returns the closed operations
in match order, the surviving pending queue, and the unmatched remainder of
the arriving quantity.  The source's queue fragments always carry a positive
quantity (they are enqueued only when positive and popped at zero), and on
such queues this recursion traces the loop step for step. -/
def drenarPendentes (close : Operacao → Nat → OperacaoFechada) :
    List Operacao → Nat → List OperacaoFechada × List Operacao × Nat
  | [], q => ([], [], q)
  | p :: rest, q =>
    if q = 0 then ([], p :: rest, 0)
    else if p.quantity ≤ q then
      let passo := drenarPendentes close rest (q - p.quantity)
      (close p p.quantity :: passo.1, passo.2.1, passo.2.2)
    else
      ([close p q], { p with quantity := p.quantity - q } :: rest, 0)

/-- The body of the `for op_atual in ops_ticker` loop of services.py:248-299:
a buy first drains pending short sales, a sell first drains pending buys, and
any positive remainder is enqueued as a fragment carrying the leftover
quantity (`op_atual_restante`). -/
def processarOperacao (st : MatchState) (op : Operacao) : MatchState :=
  match op.operation with
  | .buy =>
    let passo := drenarPendentes
      (fun pend m =>
        criar_operacao_fechada_detalhada pend op m .venda_descoberta_fechada_com_compra)
      st.vendas_pendentes op.quantity
    { compras_pendentes :=
        if 0 < passo.2.2 then st.compras_pendentes ++ [{ op with quantity := passo.2.2 }]
        else st.compras_pendentes
      vendas_pendentes := passo.2.1
      fechadas := st.fechadas ++ passo.1 }
  | .sell =>
    let passo := drenarPendentes
      (fun pend m =>
        criar_operacao_fechada_detalhada pend op m .compra_fechada_com_venda)
      st.compras_pendentes op.quantity
    { compras_pendentes := passo.2.1
      vendas_pendentes :=
        if 0 < passo.2.2 then st.vendas_pendentes ++ [{ op with quantity := passo.2.2 }]
        else st.vendas_pendentes
      fechadas := st.fechadas ++ passo.1 }

/-- The `(x["date"], x["id"])` sort key of services.py:242, with the date
compared through its ordinal (Python date comparison agrees with ordinal
comparison on valid dates). -/
def opLe (a b : Operacao) : Prop :=
  a.date.ordinal < b.date.ordinal ∨ (a.date.ordinal = b.date.ordinal ∧ a.id ≤ b.id)

instance : DecidableRel opLe := fun a b => by
  unfold opLe; exact inferInstance

instance : IsTotal Operacao opLe :=
  ⟨by intro a b; unfold opLe; omega⟩

instance : IsTrans Operacao opLe :=
  ⟨by intro a b c; unfold opLe; omega⟩

/-- `ops_ticker.sort(key=lambda x: (x["date"], x["id"]))` (services.py:242);
both Python's sort and insertion sort are stable, so they agree. -/
def ordenarOperacoes (l : List Operacao) : List Operacao :=
  l.insertionSort opLe

/-- The whole per-ticker FIFO pass: sort by (date, id), then fold the
matching step over the transactions with empty initial queues. -/
def processarTicker (ops : List Operacao) : MatchState :=
  (ordenarOperacoes ops).foldl processarOperacao
    { compras_pendentes := [], vendas_pendentes := [], fechadas := [] }

/-- Tickers in order of first appearance, as Python's `defaultdict` keeps
insertion order of the grouping at services.py:228-234. -/
def tickersDe (ops : List Operacao) : List String :=
  ops.foldl (fun acc op => if op.ticker ∈ acc then acc else acc ++ [op.ticker]) []

/-- services.py:209-305, `calcular_operacoes_fechadas`: group by ticker,
run the FIFO pass per ticker, and concatenate the closed operations (the
pending queues are per-ticker scratch state and are dropped). -/
def calcular_operacoes_fechadas (ops : List Operacao) : List OperacaoFechada :=
  (tickersDe ops).flatMap
    (fun t => (processarTicker (ops.filter (fun op => op.ticker == t))).fechadas)

/-- Total number of shares of a list of transactions. -/
def somaQuantidades (l : List Operacao) : Nat :=
  (l.map (fun op => op.quantity)).sum

/-- Total number of shares matched by a list of closed operations. -/
def somaFechadas (l : List OperacaoFechada) : Nat :=
  (l.map (fun f => f.quantidade)).sum

/-- Shares bought over a transaction list. -/
def totalCompras (l : List Operacao) : Nat :=
  somaQuantidades (l.filter (fun op => decide (op.operation = Side.buy)))

/-- Shares sold over a transaction list. -/
def totalVendas (l : List Operacao) : Nat :=
  somaQuantidades (l.filter (fun op => decide (op.operation = Side.sell)))

/-- The (trade_date, id) sort key of one transaction. -/
def chave (op : Operacao) : Nat × Nat :=
  (op.date.ordinal, op.id)

/-- A concrete two-transaction one-ticker history. -/
def exOpsA : List Operacao :=
  [{ id := 1, date := { year := 2025, month := 1, day := 10 }, ticker := "PETR4",
     operation := Side.buy, quantity := 100, price := 28, fees := 5 },
   { id := 2, date := { year := 2025, month := 1, day := 15 }, ticker := "PETR4",
     operation := Side.sell, quantity := 50, price := 30, fees := 3 }]

/-- The same two transactions, transposed. -/
def exOpsB : List Operacao :=
  [{ id := 2, date := { year := 2025, month := 1, day := 15 }, ticker := "PETR4",
     operation := Side.sell, quantity := 50, price := 30, fees := 3 },
   { id := 1, date := { year := 2025, month := 1, day := 10 }, ticker := "PETR4",
     operation := Side.buy, quantity := 100, price := 28, fees := 5 }]

/-- One row of the `carteira_atual` table / one entry of the `carteira_temp`
dictionary of `recalcular_carteira` (services.py:358-407); the defaultdict
default is quantity 0, total cost 0, average price 0. -/
structure ItemCarteira where
  ticker : String
  quantidade : Int
  custo_total : ℚ
  preco_medio : ℚ
deriving DecidableEq, Repr

/-- The body of the per-operation loop of `recalcular_carteira`
(services.py:369-397) applied to one ticker's running entry: buys add cost and
quantity, sells remove quantity and the average-price cost of the shares sold,
a non-positive resulting quantity zeroes the total cost, and the average price
is recomputed after every operation (zeroing cost and price when no shares
remain). -/
def passo_carteira (item : ItemCarteira) (op : Operacao) : ItemCarteira :=
  let valor_op : ℚ := (op.quantity : ℚ) * op.price
  let item1 :=
    match op.operation with
    | Side.buy =>
      { item with
        quantidade := item.quantidade + (op.quantity : Int)
        custo_total := item.custo_total + (valor_op + op.fees) }
    | Side.sell =>
      let custo_venda : ℚ :=
        if 0 < item.quantidade then item.preco_medio * (op.quantity : ℚ) else 0
      let quantidade2 := item.quantidade - (op.quantity : Int)
      let custo2 := item.custo_total - custo_venda
      { item with
        quantidade := quantidade2
        custo_total := if quantidade2 ≤ 0 then 0 else custo2 }
  if 0 < item1.quantidade then
    { item1 with preco_medio := item1.custo_total / (item1.quantidade : ℚ) }
  else
    { item1 with preco_medio := 0, custo_total := 0 }

/-- Look up a ticker's running entry, with the defaultdict default. -/
def buscarItem (cart : List ItemCarteira) (t : String) : ItemCarteira :=
  match cart.find? (fun i => i.ticker == t) with
  | some i => i
  | none => { ticker := t, quantidade := 0, custo_total := 0, preco_medio := 0 }

/-- Store a ticker's updated entry back, keeping first-insertion order as a
Python dict does. -/
def substituirItem : List ItemCarteira → ItemCarteira → List ItemCarteira
  | [], novo => [novo]
  | i :: rest, novo =>
    if i.ticker == novo.ticker then novo :: rest else i :: substituirItem rest novo

/-- services.py:358-407, `recalcular_carteira`: fold the full transaction list
(as `obter_todas_operacoes` returns it, ordered by date) over the per-ticker
step; entries of distinct tickers never interact. -/
def recalcular_carteira (ops : List Operacao) : List ItemCarteira :=
  ops.foldl (fun cart op => substituirItem cart (passo_carteira (buscarItem cart op.ticker) op)) []

/-- Swing-trade accumulator of `_calcular_resultado_dia` (services.py:71-75). -/
structure ResultadoSwing where
  vendas : ℚ
  custo : ℚ
  ganho_liquido : ℚ
deriving DecidableEq, Repr

/-- Day-trade accumulator of `_calcular_resultado_dia` (services.py:77-82). -/
structure ResultadoDay where
  vendas : ℚ
  custo : ℚ
  ganho_liquido : ℚ
  irrf : ℚ
deriving DecidableEq, Repr

/-- services.py:40-57, `_eh_day_trade`: a ticker is a day trade on a day when
that day holds both bought and sold quantity for it. -/
def eh_day_trade (operacoes_dia : List Operacao) (ticker : String) : Bool :=
  decide (0 < somaQuantidades (operacoes_dia.filter
      (fun op => decide (op.ticker = ticker) && decide (op.operation = Side.buy))))
  && decide (0 < somaQuantidades (operacoes_dia.filter
      (fun op => decide (op.ticker = ticker) && decide (op.operation = Side.sell))))

/-- The body of the per-operation loop of `_calcular_resultado_dia`
(services.py:91-124).  `carteira` is what `obter_carteira_atual` returns; a
swing sell looks its ticker up there and adds quantity times the found average
price to the day's cost, or nothing when the ticker has no entry. -/
def passo_resultado_dia (operacoes_dia : List Operacao) (carteira : List ItemCarteira)
    (acc : ResultadoSwing × ResultadoDay) (op : Operacao) : ResultadoSwing × ResultadoDay :=
  let valor : ℚ := (op.quantity : ℚ) * op.price
  if eh_day_trade operacoes_dia op.ticker then
    match op.operation with
    | Side.buy => (acc.1, { acc.2 with custo := acc.2.custo + (valor + op.fees) })
    | Side.sell =>
      (acc.1,
       { acc.2 with
         vendas := acc.2.vendas + (valor - op.fees)
         irrf := acc.2.irrf + valor * (1 / 100) })
  else
    match op.operation with
    | Side.buy => acc
    | Side.sell =>
      match carteira.find? (fun item => item.ticker == op.ticker) with
      | some item =>
        ({ acc.1 with
           vendas := acc.1.vendas + (valor - op.fees)
           custo := acc.1.custo + (op.quantity : ℚ) * item.preco_medio }, acc.2)
      | none =>
        ({ acc.1 with vendas := acc.1.vendas + (valor - op.fees) }, acc.2)

/-- services.py:59-130, `_calcular_resultado_dia`: fold the day's operations
and then set each stream's net gain to sales minus cost. -/
def calcular_resultado_dia (operacoes_dia : List Operacao) (carteira : List ItemCarteira) :
    ResultadoSwing × ResultadoDay :=
  match operacoes_dia.foldl (passo_resultado_dia operacoes_dia carteira)
    ({ vendas := 0, custo := 0, ganho_liquido := 0 },
     { vendas := 0, custo := 0, ganho_liquido := 0, irrf := 0 }) with
  | (rs, rd) =>
    ({ rs with ganho_liquido := rs.vendas - rs.custo },
     { rd with ganho_liquido := rd.vendas - rd.custo })

/-- The `%Y-%m` month key of one transaction, as the (year, month) pair; the
zero-padded month strings of the source sort exactly like these pairs. -/
def mesDe (op : Operacao) : Nat × Nat :=
  (op.date.year, op.date.month)

/-- Order of month keys ("YYYY-MM" string order on zero-padded strings). -/
def mesLe (a b : Nat × Nat) : Prop :=
  a.1 < b.1 ∨ (a.1 = b.1 ∧ a.2 ≤ b.2)

instance : DecidableRel mesLe := fun a b => by
  unfold mesLe; exact inferInstance

/-- Order of day keys (ISO date string order on valid dates). -/
def diaLe (a b : Data) : Prop :=
  a.ordinal ≤ b.ordinal

instance : DecidableRel diaLe := fun a b => by
  unfold diaLe; exact inferInstance

/-- The distinct months of the history, sorted ascending
(`sorted(operacoes_por_mes.items())`, services.py:435). -/
def mesesPresentes (ops : List Operacao) : List (Nat × Nat) :=
  (ops.foldl (fun acc op => if mesDe op ∈ acc then acc else acc ++ [mesDe op]) []).insertionSort
    mesLe

/-- The distinct days of one month's operations, sorted ascending
(`sorted(operacoes_por_dia.items())`, services.py:452). -/
def diasPresentes (ops : List Operacao) : List Data :=
  (ops.foldl (fun acc op => if op.date ∈ acc then acc else acc ++ [op.date]) []).insertionSort
    diaLe

/-- The month's per-day results, in day order (services.py:452-454). -/
def resultadosDias (carteira : List ItemCarteira) (ops_mes : List Operacao) :
    List (ResultadoSwing × ResultadoDay) :=
  (diasPresentes ops_mes).map
    (fun d => calcular_resultado_dia (ops_mes.filter (fun op => decide (op.date = d))) carteira)

/-- One step of the month accumulation of swing day results (services.py:457-459). -/
def passoSomaSwing (acc : ResultadoSwing) (r : ResultadoSwing × ResultadoDay) : ResultadoSwing :=
  { vendas := acc.vendas + r.1.vendas
    custo := acc.custo + r.1.custo
    ganho_liquido := acc.ganho_liquido + r.1.ganho_liquido }

/-- One step of the month accumulation of day-trade day results (services.py:461-464). -/
def passoSomaDay (acc : ResultadoDay) (r : ResultadoSwing × ResultadoDay) : ResultadoDay :=
  { vendas := acc.vendas + r.2.vendas
    custo := acc.custo + r.2.custo
    ganho_liquido := acc.ganho_liquido + r.2.ganho_liquido
    irrf := acc.irrf + r.2.irrf }

/-- Month accumulation of the swing day results (services.py:457-459). -/
def somaMesSwing (rs : List (ResultadoSwing × ResultadoDay)) : ResultadoSwing :=
  rs.foldl passoSomaSwing { vendas := 0, custo := 0, ganho_liquido := 0 }

/-- Month accumulation of the day-trade day results (services.py:461-464). -/
def somaMesDay (rs : List (ResultadoSwing × ResultadoDay)) : ResultadoDay :=
  rs.foldl passoSomaDay { vendas := 0, custo := 0, ganho_liquido := 0, irrf := 0 }

/-- services.py:470-488 (one stream): returns the month's net gain after
offsetting and the new accumulated loss.  With accumulated loss and positive
gain, both shrink by the smaller of the two; with a negative gain, its
absolute value joins the accumulated loss and the gain is zeroed. -/
def aplicar_compensacao (prejuizo_acumulado ganho_liquido : ℚ) : ℚ × ℚ :=
  if 0 < prejuizo_acumulado ∧ 0 < ganho_liquido then
    (ganho_liquido - min prejuizo_acumulado ganho_liquido,
     prejuizo_acumulado - min prejuizo_acumulado ganho_liquido)
  else if ganho_liquido < 0 then
    (0, prejuizo_acumulado + |ganho_liquido|)
  else
    (ganho_liquido, prejuizo_acumulado)

/-- services.py:491, `ir_devido_swing`: 15% of the taxable swing gain, forced
to zero when the month is exempt (the source computes it and never stores it). -/
def ir_devido_swing (isento : Bool) (ganho : ℚ) : ℚ :=
  if isento then 0 else ganho * (15 / 100)

/-- The swing net gain of a month's operations before loss offsetting. -/
def ganhoSwingMes (carteira : List ItemCarteira) (ops_mes : List Operacao) : ℚ :=
  (somaMesSwing (resultadosDias carteira ops_mes)).ganho_liquido

/-- The day-trade net gain of a month's operations before loss offsetting. -/
def ganhoDayMes (carteira : List ItemCarteira) (ops_mes : List Operacao) : ℚ :=
  (somaMesDay (resultadosDias carteira ops_mes)).ganho_liquido

/-- The DARF record of services.py:510-515. -/
structure Darf where
  codigo : String
  competencia : Nat × Nat
  valor : ℚ
  vencimento : Data
deriving DecidableEq, Repr

/-- The monthly-result dictionary of services.py:518-538 (the DARF fields are
present only when a DARF was generated). -/
structure MesResultado where
  mes : Nat × Nat
  vendas_swing : ℚ
  custo_swing : ℚ
  ganho_liquido_swing : ℚ
  isento_swing : Bool
  ganho_liquido_day : ℚ
  ir_devido_day : ℚ
  irrf_day : ℚ
  ir_pagar_day : ℚ
  prejuizo_acumulado_swing : ℚ
  prejuizo_acumulado_day : ℚ
  darf : Option Darf
deriving DecidableEq, Repr

/-- services.py:502-508: the DARF due date computed from a (year, month) pair:
the last day of the following month (for December the source asks
`monthrange` about January of the same year, which also has 31 days, and
builds the date in the next year), stepped back past the weekend. -/
def calcular_vencimento (mes : Nat × Nat) : Data :=
  let ano := mes.1
  let mes_num := mes.2
  let ultimo_dia := daysInMonth ano (if mes_num < 12 then mes_num + 1 else 1)
  ajustarDiaUtil
    { year := if mes_num < 12 then ano else ano + 1
      month := if mes_num < 12 then mes_num + 1 else 1
      day := ultimo_dia }

/-- The body of the per-month loop of `recalcular_resultados`
(services.py:435-538), excluding the failing persistence call: day results are
summed, the exemption flag is taken from the month's swing sales, loss
offsetting updates both accumulators, taxes are computed, and the result
record is built.  The source also computes locals `ir_devido_swing` and
`ir_pagar_swing` (services.py:491, 495) that it neither stores nor uses;
`ir_devido_swing` above embeds the former's formula.  `mes_residual` is the
value of the leaked variable `mes`
(assigned last at services.py:427, during grouping, so it holds the month of
the LAST transaction of the whole history): the source reads it, not the loop
variable `mes_str`, for the record's month, the DARF competencia and the DARF
due date. -/
def processar_mes (carteira : List ItemCarteira) (mes_residual : Nat × Nat)
    (prejuizos : ℚ × ℚ) (ops_mes : List Operacao) : (ℚ × ℚ) × MesResultado :=
  let rs := resultadosDias carteira ops_mes
  let resultado_mes_swing := somaMesSwing rs
  let resultado_mes_day := somaMesDay rs
  let isento_swing : Bool := decide (resultado_mes_swing.vendas ≤ 20000)
  let compS := aplicar_compensacao prejuizos.1 resultado_mes_swing.ganho_liquido
  let compD := aplicar_compensacao prejuizos.2 resultado_mes_day.ganho_liquido
  let ir_devido_day := max 0 (compD.1 * (20 / 100))
  let ir_pagar_day := max 0 (ir_devido_day - resultado_mes_day.irrf)
  let darf : Option Darf :=
    if 0 < ir_pagar_day then
      some
        { codigo := "6015"
          competencia := mes_residual
          valor := ir_pagar_day
          vencimento := calcular_vencimento mes_residual }
    else none
  ((compS.2, compD.2),
   { mes := mes_residual
     vendas_swing := resultado_mes_swing.vendas
     custo_swing := resultado_mes_swing.custo
     ganho_liquido_swing := compS.1
     isento_swing := isento_swing
     ganho_liquido_day := compD.1
     ir_devido_day := ir_devido_day
     irrf_day := resultado_mes_day.irrf
     ir_pagar_day := ir_pagar_day
     prejuizo_acumulado_swing := compS.2
     prejuizo_acumulado_day := compD.2
     darf := darf })

/-- The leaked `mes` variable: month of the last transaction of the history in
the order `obter_todas_operacoes` returns it (services.py:419-427), or a dummy
when the history is empty (then the variable is never read). -/
def mesUltimaOperacao (ops : List Operacao) : Nat × Nat :=
  match ops.getLast? with
  | some op => mesDe op
  | none => (0, 0)

/-- The month loop of services.py:435-541, threading both loss accumulators
month to month: each month starts from the accumulators the previous month
ended with. -/
def processar_meses (carteira : List ItemCarteira) (mes_residual : Nat × Nat) :
    List (List Operacao) → ℚ → ℚ → List MesResultado
  | [], _, _ => []
  | m :: ms, pS, pD =>
    let r := processar_mes carteira mes_residual (pS, pD) m
    r.2 :: processar_meses carteira mes_residual ms r.1.1 r.1.2

/-- The arithmetic of `recalcular_resultados` (services.py:410-538): group by
month, process months in ascending order with loss carry-forward, building one
result record per month present. -/
def recalcular_resultados_calculo (ops : List Operacao) (carteira : List ItemCarteira) :
    List MesResultado :=
  processar_meses carteira (mesUltimaOperacao ops)
    ((mesesPresentes ops).map (fun m => ops.filter (fun op => decide (mesDe op = m)))) 0 0

/-- Python exceptions the modelled code can raise. -/
inductive PyExc where
  | typeError
  | nameError
deriving DecidableEq, Repr

/-- services.py:410-669, `recalcular_resultados` as it actually executes.
With at least one month present, the first iteration of the month loop calls
`salvar_resultado_mensal(resultado)` (services.py:541) without the required
`usuario_id` argument of database.py:395, raising TypeError before anything is
persisted.  With no months, the loop body never runs and control falls into
the stray duplicated block still inside the function (services.py:542-669),
whose first statement `operacoes = obter_todas_operacoes()` (services.py:546)
omits the required `usuario_id` of database.py:240 and raises TypeError as
well.  So the call never returns normally, for any history. -/
def recalcular_resultados (ops : List Operacao) (carteira : List ItemCarteira) :
    Except PyExc (List MesResultado) :=
  match recalcular_resultados_calculo ops carteira with
  | [] => Except.error PyExc.typeError
  | _ :: _ => Except.error PyExc.typeError

/-- The names services.py imports from database.py (services.py:8-19). -/
def servicesImportadas : List String :=
  ["inserir_operacao", "obter_todas_operacoes", "atualizar_carteira", "obter_carteira_atual",
   "salvar_resultado_mensal", "obter_resultados_mensais", "obter_operacoes_para_calculo_fechadas",
   "salvar_operacao_fechada", "limpar_operacoes_fechadas_usuario"]

/-- The top-level function names services.py defines itself. -/
def servicesDefinidas : List String :=
  ["processar_operacoes", "_eh_day_trade", "_calcular_resultado_dia",
   "calcular_resultados_mensais", "calcular_carteira_atual", "gerar_darfs",
   "inserir_operacao_manual", "atualizar_item_carteira", "calcular_operacoes_fechadas",
   "_criar_operacao_fechada_detalhada", "recalcular_carteira", "recalcular_resultados",
   "listar_operacoes_service", "deletar_operacao_service"]

/-- Python name resolution inside services.py: a global name is defined there
when it is imported or defined at module level (services.py also imports the
modules' models; none of those names matter here). -/
def nomeDisponivel (nome : String) : Bool :=
  servicesImportadas.contains nome || servicesDefinidas.contains nome

/-- One row of the `operacoes` table with its owner column. -/
structure OperacaoRow where
  operacao : Operacao
  usuario_id : Nat
deriving DecidableEq, Repr

/-- database.py:321-340, `remover_operacao`: delete the row matching both id
and owner; report whether a row was deleted (`cursor.rowcount > 0`). -/
def remover_operacao (db : List OperacaoRow) (operacao_id usuario_id : Nat) :
    Bool × List OperacaoRow :=
  let restantes := db.filter
    (fun r => !(r.operacao.id == operacao_id && r.usuario_id == usuario_id))
  (decide (restantes.length < db.length), restantes)

/-- All of one user's persisted state. -/
structure EstadoUsuario where
  operacoes : List OperacaoRow
  carteira : List ItemCarteira
  resultados : List MesResultado
  fechadas : List OperacaoFechada
deriving DecidableEq, Repr

/-- services.py:677-686, `deletar_operacao_service`, as it actually executes:
the body's first expression is the global name `remover_operacao`, which
services.py neither imports (services.py:8-19; main.py:19 notes it was
removed) nor defines, so evaluating the call raises NameError for every
argument, before the database is consulted.  The branch guarded by
`nomeDisponivel` is the behaviour the body would have if the name resolved. -/
def deletar_operacao_service (operacao_id usuario_id : Nat) (st : EstadoUsuario) :
    Except PyExc (Bool × EstadoUsuario) :=
  if nomeDisponivel "remover_operacao" then
    let rem := remover_operacao st.operacoes operacao_id usuario_id
    if rem.1 then
      let ops := (rem.2.filter (fun r => r.usuario_id == usuario_id)).map (fun r => r.operacao)
      let carteira2 := recalcular_carteira ops
      match recalcular_resultados ops carteira2 with
      | Except.error e => Except.error e
      | Except.ok _ => Except.ok (true, { st with operacoes := rem.2, carteira := carteira2 })
    else
      Except.ok (false, st)
  else
    Except.error PyExc.nameError

/-- Scenario C of the spec: a short sale covered by a later buy. -/
def cenarioC : List Operacao :=
  [{ id := 1, date := { year := 2025, month := 1, day := 10 }, ticker := "PETR4",
     operation := Side.sell, quantity := 100, price := 20, fees := 2 },
   { id := 2, date := { year := 2025, month := 1, day := 15 }, ticker := "PETR4",
     operation := Side.buy, quantity := 100, price := 18, fees := 1.5 }]

/-- A buy fragment of 100 shares with fees 10, fully consumed by two sells of
50 shares each. -/
def exDivisaoTaxas : List Operacao :=
  [{ id := 1, date := { year := 2025, month := 1, day := 10 }, ticker := "ACAO",
     operation := Side.buy, quantity := 100, price := 10, fees := 10 },
   { id := 2, date := { year := 2025, month := 1, day := 15 }, ticker := "ACAO",
     operation := Side.sell, quantity := 50, price := 11, fees := 0 },
   { id := 3, date := { year := 2025, month := 1, day := 20 }, ticker := "ACAO",
     operation := Side.sell, quantity := 50, price := 11, fees := 0 }]

/-- A history spanning two months: a profitable same-day trade in January 2025
(which forces a DARF) and a lone buy in February 2025. -/
def exDoisMeses : List Operacao :=
  [{ id := 1, date := { year := 2025, month := 1, day := 10 }, ticker := "PETR4",
     operation := Side.buy, quantity := 1000, price := 30, fees := 50 },
   { id := 2, date := { year := 2025, month := 1, day := 10 }, ticker := "PETR4",
     operation := Side.sell, quantity := 1000, price := 32, fees := 50 },
   { id := 3, date := { year := 2025, month := 2, day := 5 }, ticker := "VALE3",
     operation := Side.buy, quantity := 10, price := 10, fees := 0 }]

/-- One swing sell grossing exactly 20000.00 after fees. -/
def exVenda20000 : List Operacao :=
  [{ id := 1, date := { year := 2025, month := 3, day := 10 }, ticker := "BBAS3",
     operation := Side.sell, quantity := 1, price := 20000, fees := 0 }]

/-- One swing sell grossing exactly 20000.01 after fees. -/
def exVenda20000c : List Operacao :=
  [{ id := 1, date := { year := 2025, month := 3, day := 10 }, ticker := "BBAS3",
     operation := Side.sell, quantity := 1, price := 20000.01, fees := 0 }]

/-- A portfolio snapshot holding only PETR4. -/
def exCarteiraPETR4 : List ItemCarteira :=
  [{ ticker := "PETR4", quantidade := 100, custo_total := 1000, preco_medio := 10 }]

/-- A swing sell of a ticker absent from `exCarteiraPETR4`. -/
def exVendaSemCarteira : Operacao :=
  { id := 1, date := { year := 2025, month := 4, day := 10 }, ticker := "VALE3",
    operation := Side.sell, quantity := 10, price := 20, fees := 1 }

/-- A concrete portfolio entry for witnessing the rebuild step. -/
def exItemPETR4 : ItemCarteira :=
  { ticker := "PETR4", quantidade := 100, custo_total := 1000, preco_medio := 10 }

/-- A concrete sell against `exItemPETR4`. -/
def exVenda40 : Operacao :=
  { id := 7, date := { year := 2025, month := 5, day := 6 }, ticker := "PETR4",
    operation := Side.sell, quantity := 40, price := 12, fees := 1 }

theorem side_buy_eq_sell_iff : (Side.buy = Side.sell) = False := eq_false (by decide)

theorem side_sell_eq_buy_iff : (Side.sell = Side.buy) = False := eq_false (by decide)

theorem somaQuantidades_nil : somaQuantidades [] = 0 := rfl

theorem somaQuantidades_cons (op : Operacao) (l : List Operacao) :
    somaQuantidades (op :: l) = op.quantity + somaQuantidades l := by
  simp [somaQuantidades]

theorem somaQuantidades_append (l₁ l₂ : List Operacao) :
    somaQuantidades (l₁ ++ l₂) = somaQuantidades l₁ + somaQuantidades l₂ := by
  simp [somaQuantidades]

theorem somaFechadas_nil : somaFechadas [] = 0 := rfl

theorem somaFechadas_cons (f : OperacaoFechada) (l : List OperacaoFechada) :
    somaFechadas (f :: l) = f.quantidade + somaFechadas l := by
  simp [somaFechadas]

theorem somaFechadas_append (l₁ l₂ : List OperacaoFechada) :
    somaFechadas (l₁ ++ l₂) = somaFechadas l₁ + somaFechadas l₂ := by
  simp [somaFechadas]

theorem criar_quantidade (op_ab op_fec : Operacao) (m : Nat) (tipo : TipoFechamento) :
    (criar_operacao_fechada_detalhada op_ab op_fec m tipo).quantidade = m := by
  cases tipo <;> rfl

/-- Accounting of one draining loop: the remainder never exceeds the arriving
quantity, matched shares equal arriving minus remainder, shares leave the
pending queue exactly as they are matched, and a positive remainder means the
queue was drained empty. -/
theorem drenarPendentes_spec (close : Operacao → Nat → OperacaoFechada)
    (hclose : ∀ p m, (close p m).quantidade = m) :
    ∀ (pend : List Operacao) (q : Nat),
      (drenarPendentes close pend q).2.2 ≤ q
      ∧ somaFechadas (drenarPendentes close pend q).1 + (drenarPendentes close pend q).2.2 = q
      ∧ somaQuantidades (drenarPendentes close pend q).2.1
          + somaFechadas (drenarPendentes close pend q).1 = somaQuantidades pend
      ∧ (0 < (drenarPendentes close pend q).2.2 → (drenarPendentes close pend q).2.1 = []) := by
  intro pend
  induction pend with
  | nil =>
    intro q
    simp [drenarPendentes, somaFechadas_nil, somaQuantidades_nil]
  | cons p rest ih =>
    intro q
    by_cases h0 : q = 0
    · subst h0
      simp [drenarPendentes, somaFechadas_nil, somaQuantidades_nil]
    · by_cases h1 : p.quantity ≤ q
      · obtain ⟨ha, hb, hc, hq⟩ := ih (q - p.quantity)
        simp only [drenarPendentes, if_neg h0, if_pos h1, somaFechadas_cons, hclose,
          somaQuantidades_cons]
        exact ⟨by omega, by omega, by omega, hq⟩
      · simp only [drenarPendentes, if_neg h0, if_neg h1, somaFechadas_cons, somaFechadas_nil,
          somaQuantidades_cons, hclose]
        refine ⟨by omega, by omega, by omega, by simp⟩

/-- Share accounting of one FIFO step: a buy adds its quantity to the
closed-plus-pending-buys total and leaves the closed-plus-pending-sells total
unchanged (a sell symmetrically), and at most one queue stays nonempty. -/
theorem processarOperacao_soma (st : MatchState) (op : Operacao) :
    (somaFechadas (processarOperacao st op).fechadas
        + somaQuantidades (processarOperacao st op).compras_pendentes
      = somaFechadas st.fechadas + somaQuantidades st.compras_pendentes
        + (if op.operation = Side.buy then op.quantity else 0))
    ∧ (somaFechadas (processarOperacao st op).fechadas
        + somaQuantidades (processarOperacao st op).vendas_pendentes
      = somaFechadas st.fechadas + somaQuantidades st.vendas_pendentes
        + (if op.operation = Side.sell then op.quantity else 0))
    ∧ ((st.compras_pendentes = [] ∨ st.vendas_pendentes = []) →
        ((processarOperacao st op).compras_pendentes = []
          ∨ (processarOperacao st op).vendas_pendentes = [])) := by
  cases hop : op.operation with
  | buy =>
    have hd := drenarPendentes_spec
      (fun pend m =>
        criar_operacao_fechada_detalhada pend op m .venda_descoberta_fechada_com_compra)
      (fun p m => criar_quantidade p op m _) st.vendas_pendentes op.quantity
    rcases hdrain : drenarPendentes
        (fun pend m =>
          criar_operacao_fechada_detalhada pend op m .venda_descoberta_fechada_com_compra)
        st.vendas_pendentes op.quantity with ⟨fs, pend2, qrem⟩
    rw [hdrain] at hd
    simp only at hd
    simp only [processarOperacao, hop, hdrain, somaFechadas_append, somaQuantidades_append]
    refine ⟨?_, ?_, ?_⟩
    · split <;> simp [somaQuantidades_append, somaQuantidades_cons, somaQuantidades_nil] <;>
        omega
    · simp
      omega
    · intro hor
      rcases hor with hc | hv
      · by_cases hq : 0 < qrem
        · exact Or.inr (hd.2.2.2 hq)
        · left
          simp [if_neg hq, hc]
      · right
        have : drenarPendentes
            (fun pend m =>
              criar_operacao_fechada_detalhada pend op m .venda_descoberta_fechada_com_compra)
            st.vendas_pendentes op.quantity
            = ([], [], op.quantity) := by
          rw [hv]
          rfl
        rw [hdrain] at this
        simp only [Prod.mk.injEq] at this
        simp [this.2.1]
  | sell =>
    have hd := drenarPendentes_spec
      (fun pend m =>
        criar_operacao_fechada_detalhada pend op m .compra_fechada_com_venda)
      (fun p m => criar_quantidade p op m _) st.compras_pendentes op.quantity
    rcases hdrain : drenarPendentes
        (fun pend m =>
          criar_operacao_fechada_detalhada pend op m .compra_fechada_com_venda)
        st.compras_pendentes op.quantity with ⟨fs, pend2, qrem⟩
    rw [hdrain] at hd
    simp only at hd
    simp only [processarOperacao, hop, hdrain, somaFechadas_append, somaQuantidades_append]
    refine ⟨?_, ?_, ?_⟩
    · simp
      omega
    · split <;> simp [somaQuantidades_append, somaQuantidades_cons, somaQuantidades_nil] <;>
        omega
    · intro hor
      rcases hor with hc | hv
      · left
        have : drenarPendentes
            (fun pend m =>
              criar_operacao_fechada_detalhada pend op m .compra_fechada_com_venda)
            st.compras_pendentes op.quantity
            = ([], [], op.quantity) := by
          rw [hc]
          rfl
        rw [hdrain] at this
        simp only [Prod.mk.injEq] at this
        simp [this.2.1]
      · by_cases hq : 0 < qrem
        · exact Or.inl (hd.2.2.2 hq)
        · right
          simp [if_neg hq, hv]

theorem totalCompras_cons (op : Operacao) (l : List Operacao) :
    totalCompras (op :: l)
      = (if op.operation = Side.buy then op.quantity else 0) + totalCompras l := by
  simp only [totalCompras, List.filter_cons]
  split <;> simp_all [somaQuantidades_cons]

theorem totalVendas_cons (op : Operacao) (l : List Operacao) :
    totalVendas (op :: l)
      = (if op.operation = Side.sell then op.quantity else 0) + totalVendas l := by
  simp only [totalVendas, List.filter_cons]
  split <;> simp_all [somaQuantidades_cons]

theorem totalCompras_perm {l l' : List Operacao} (h : l.Perm l') :
    totalCompras l = totalCompras l' := by
  unfold totalCompras somaQuantidades
  exact ((h.filter _).map _).sum_eq

theorem totalVendas_perm {l l' : List Operacao} (h : l.Perm l') :
    totalVendas l = totalVendas l' := by
  unfold totalVendas somaQuantidades
  exact ((h.filter _).map _).sum_eq

/-- Share accounting of the whole matching fold, relative to an arbitrary
starting state. -/
theorem foldl_processarOperacao_soma (ops : List Operacao) : ∀ st : MatchState,
    (somaFechadas (ops.foldl processarOperacao st).fechadas
        + somaQuantidades (ops.foldl processarOperacao st).compras_pendentes
      = somaFechadas st.fechadas + somaQuantidades st.compras_pendentes + totalCompras ops)
    ∧ (somaFechadas (ops.foldl processarOperacao st).fechadas
        + somaQuantidades (ops.foldl processarOperacao st).vendas_pendentes
      = somaFechadas st.fechadas + somaQuantidades st.vendas_pendentes + totalVendas ops)
    ∧ ((st.compras_pendentes = [] ∨ st.vendas_pendentes = []) →
        ((ops.foldl processarOperacao st).compras_pendentes = []
          ∨ (ops.foldl processarOperacao st).vendas_pendentes = [])) := by
  induction ops with
  | nil =>
    intro st
    simp [totalCompras, totalVendas, somaQuantidades_nil]
  | cons op rest ih =>
    intro st
    obtain ⟨h1, h2, h3⟩ := processarOperacao_soma st op
    obtain ⟨g1, g2, g3⟩ := ih (processarOperacao st op)
    simp only [List.foldl_cons, totalCompras_cons, totalVendas_cons]
    exact ⟨by omega, by omega, fun h => g3 (h3 h)⟩

/-- Two members of a list whose sort keys are pairwise distinct are equal as
soon as their keys are equal. -/
theorem eq_of_chave_eq {l : List Operacao} (hl : l.Pairwise (fun a b => chave a ≠ chave b)) :
    ∀ {a b : Operacao}, a ∈ l → b ∈ l → chave a = chave b → a = b := by
  induction l with
  | nil => intro a b ha; simp at ha
  | cons c t ih =>
    intro a b ha hb hab
    obtain ⟨hc, ht⟩ := List.pairwise_cons.mp hl
    rcases List.mem_cons.mp ha with rfl | ha'
    · rcases List.mem_cons.mp hb with rfl | hb'
      · rfl
      · exact absurd hab (hc b hb')
    · rcases List.mem_cons.mp hb with rfl | hb'
      · exact absurd hab.symm (hc a ha')
      · exact ih ht ha' hb' hab

/-- Mutually permuted transaction lists with pairwise distinct (date, id)
keys sort identically. -/
theorem ordenarOperacoes_perm_eq {l l' : List Operacao} (hperm : l.Perm l')
    (hchaves : l.Pairwise (fun a b => chave a ≠ chave b)) :
    ordenarOperacoes l = ordenarOperacoes l' := by
  have hp1 : (ordenarOperacoes l).Perm l := List.perm_insertionSort opLe l
  have hp2 : (ordenarOperacoes l').Perm l' := List.perm_insertionSort opLe l'
  have hps : (ordenarOperacoes l).Perm (ordenarOperacoes l') :=
    (hp1.trans hperm).trans hp2.symm
  have hs1 : (ordenarOperacoes l).Pairwise opLe := List.sorted_insertionSort opLe l
  have hs2 : (ordenarOperacoes l').Pairwise opLe := List.sorted_insertionSort opLe l'
  have hk1 : (ordenarOperacoes l).Pairwise (fun a b => chave a ≠ chave b) :=
    hp1.symm.pairwise hchaves (fun hxy h => hxy h.symm)
  refine List.Perm.eq_of_sorted ?_ hs1 hs2 hps
  intro a b ha hb hle1 hle2
  have hb1 : b ∈ ordenarOperacoes l := hps.symm.subset hb
  have hch : chave a = chave b := by
    unfold opLe at hle1 hle2
    unfold chave
    have : a.date.ordinal = b.date.ordinal ∧ a.id = b.id := by omega
    rw [this.1, this.2]
  exact eq_of_chave_eq hk1 ha hb1 hch

/-- Claim C5: the per-ticker Lot Matcher sorts by (trade_date, id) and is
share-conserving: closed quantity plus leftover pending quantity equals the
larger of total bought and total sold (each side satisfies
closed + own leftover = own total, and at most one side has leftover), and
the output is deterministic: any reordering of the same transactions with
pairwise distinct (trade_date, id) keys produces the same matching state. -/
theorem fifo_conservacao_determinismo (ops ops' : List Operacao) :
    (somaFechadas (processarTicker ops).fechadas
        + (somaQuantidades (processarTicker ops).compras_pendentes
          + somaQuantidades (processarTicker ops).vendas_pendentes)
      = max (totalCompras ops) (totalVendas ops))
    ∧ (ops.Perm ops' → ops.Pairwise (fun a b => chave a ≠ chave b) →
        processarTicker ops = processarTicker ops') := by
  constructor
  · obtain ⟨h1, h2, h3⟩ :=
      foldl_processarOperacao_soma (ordenarOperacoes ops)
        { compras_pendentes := [], vendas_pendentes := [], fechadas := [] }
    have hB : totalCompras (ordenarOperacoes ops) = totalCompras ops :=
      totalCompras_perm (List.perm_insertionSort opLe ops)
    have hS : totalVendas (ordenarOperacoes ops) = totalVendas ops :=
      totalVendas_perm (List.perm_insertionSort opLe ops)
    rw [hB] at h1
    rw [hS] at h2
    simp only [somaFechadas_nil, somaQuantidades_nil] at h1 h2
    have h3' := h3 (Or.inl rfl)
    unfold processarTicker
    have hzero : somaQuantidades
          ((ordenarOperacoes ops).foldl processarOperacao
            { compras_pendentes := [], vendas_pendentes := [], fechadas := [] }).compras_pendentes = 0
        ∨ somaQuantidades
          ((ordenarOperacoes ops).foldl processarOperacao
            { compras_pendentes := [], vendas_pendentes := [], fechadas := [] }).vendas_pendentes = 0 := by
      rcases h3' with hc | hv
      · exact Or.inl (by rw [hc]; rfl)
      · exact Or.inr (by rw [hv]; rfl)
    omega
  · intro hperm hchaves
    unfold processarTicker
    rw [ordenarOperacoes_perm_eq hperm hchaves]

/-- Application of the FIFO conservation and determinism theorem at a concrete
two-transaction history and a transposition of it. -/
theorem fifo_conservacao_determinismo_aplicacao :
    (somaFechadas (processarTicker exOpsA).fechadas
        + (somaQuantidades (processarTicker exOpsA).compras_pendentes
          + somaQuantidades (processarTicker exOpsA).vendas_pendentes)
      = max (totalCompras exOpsA) (totalVendas exOpsA))
    ∧ processarTicker exOpsA = processarTicker exOpsB := by
  have h := fifo_conservacao_determinismo exOpsA exOpsB
  exact ⟨h.1, h.2 (by decide) (by decide)⟩

/-- Claim C1, refuted by the code: the Monthly Tax Aggregator
`recalcular_resultados` never completes normally.  For every transaction
history (empty or not) and every portfolio snapshot it raises TypeError: with
months present the first `salvar_resultado_mensal(resultado)` call at
services.py:541 omits the mandatory `usuario_id` parameter of
database.py:395, and with no months control reaches the stray duplicated
block inside the function, whose `obter_todas_operacoes()` call at
services.py:546 omits the mandatory `usuario_id` of database.py:240. -/
theorem recalcular_resultados_sempre_falha (ops : List Operacao) (carteira : List ItemCarteira) :
    recalcular_resultados ops carteira = Except.error PyExc.typeError := by
  unfold recalcular_resultados
  cases recalcular_resultados_calculo ops carteira <;> rfl

/-- Claim C4, refuted by the code: `deletar_operacao_service` raises NameError
for every transaction id, owner and database state - valid or not - because
`remover_operacao` is not among the names services.py imports or defines, so
it never returns False for a missing id. -/
theorem deletar_operacao_sempre_nameerror (operacao_id usuario_id : Nat) (st : EstadoUsuario) :
    deletar_operacao_service operacao_id usuario_id st = Except.error PyExc.nameError := by
  rfl

/-- Claim C8: a long closure's realized result is close value minus open value
minus the position's total fees, a short cover's is open (sell) value minus
close (buy) value minus total fees, and scenario C (SELL 100 at 20.00 fees
2.00, then BUY 100 at 18.00 fees 1.50, same ticker) produces exactly one
closed position, opened by the sell (short covered), with realized result
196.50. -/
theorem resultado_realizado_formulas (op_ab op_fec : Operacao) (m : Nat) :
    ((criar_operacao_fechada_detalhada op_ab op_fec m
        TipoFechamento.compra_fechada_com_venda).resultado
      = op_fec.price * (m : ℚ) - op_ab.price * (m : ℚ)
        - (criar_operacao_fechada_detalhada op_ab op_fec m
            TipoFechamento.compra_fechada_com_venda).taxas_total)
    ∧ ((criar_operacao_fechada_detalhada op_ab op_fec m
          TipoFechamento.venda_descoberta_fechada_com_compra).resultado
      = op_ab.price * (m : ℚ) - op_fec.price * (m : ℚ)
        - (criar_operacao_fechada_detalhada op_ab op_fec m
            TipoFechamento.venda_descoberta_fechada_com_compra).taxas_total)
    ∧ calcular_operacoes_fechadas cenarioC
      = [{ ticker := "PETR4"
           data_abertura := { year := 2025, month := 1, day := 10 }
           data_fechamento := { year := 2025, month := 1, day := 15 }
           quantidade := 100
           valor_compra := 1800
           valor_venda := 2000
           resultado := 196.5
           percentual_lucro := 13100 / 1201
           day_trade := false
           id_operacao_abertura := 1
           id_operacao_fechamento := 2
           taxas_abertura := 2
           taxas_fechamento := 1.5 }] := by
  refine ⟨?_, ?_, ?_⟩
  · simp only [criar_operacao_fechada_detalhada, OperacaoFechada.taxas_total]
    ring
  · simp only [criar_operacao_fechada_detalhada, OperacaoFechada.taxas_total]
    ring
  · norm_num [calcular_operacoes_fechadas, tickersDe, processarTicker, ordenarOperacoes,
      List.insertionSort, List.orderedInsert, processarOperacao, drenarPendentes,
      criar_operacao_fechada_detalhada, cenarioC, opLe, Data.ordinal, daysBeforeYear,
      daysBeforeMonth, daysInMonth, isLeap, List.range_succ]

/-- Claim C3, refuted by the code: on a history with a profitable January 2025
day trade and one February 2025 transaction, the months present are January
and February and one record per month is built in that order, but both records
carry the month (2025, 2) - the leaked grouping variable `mes` holding the
last transaction's month (services.py:427 read at 502, 512, 519) - so the
January record and its embedded DARF carry competencia (2025, 2) instead of
(2025, 1), the DARF due date 2025-03-31 is the last weekday of the month
following the stale month, and on top of that the real function raises
TypeError before persisting anything (services.py:541). -/
theorem mes_residual_contamina_meses :
    mesesPresentes exDoisMeses = [(2025, 1), (2025, 2)]
    ∧ (recalcular_resultados_calculo exDoisMeses []).map (fun r => r.mes)
        = [(2025, 2), (2025, 2)]
    ∧ (recalcular_resultados_calculo exDoisMeses []).map
        (fun r => r.darf.map (fun d => (d.codigo, d.competencia, d.valor, d.vencimento)))
      = [some ("6015", (2025, 2), 60, { year := 2025, month := 3, day := 31 }), none]
    ∧ recalcular_resultados exDoisMeses [] = Except.error PyExc.typeError := by
  refine ⟨?_, ?_, ?_, ?_⟩
  · norm_num [mesesPresentes, mesDe, mesLe, exDoisMeses, List.insertionSort,
      List.orderedInsert]
  · norm_num [recalcular_resultados_calculo, processar_meses, processar_mes,
      mesUltimaOperacao, mesesPresentes, mesDe, mesLe, exDoisMeses, List.insertionSort,
      List.orderedInsert, resultadosDias, diasPresentes, diaLe, calcular_resultado_dia,
      passo_resultado_dia, eh_day_trade, somaQuantidades, somaMesSwing, somaMesDay,
      passoSomaSwing, passoSomaDay, aplicar_compensacao, Data.ordinal, daysBeforeYear,
      daysBeforeMonth, daysInMonth, isLeap, List.range_succ]
  · norm_num [recalcular_resultados_calculo, processar_meses, processar_mes,
      mesUltimaOperacao, mesesPresentes, mesDe, mesLe, exDoisMeses, List.insertionSort,
      List.orderedInsert, resultadosDias, diasPresentes, diaLe, calcular_resultado_dia,
      passo_resultado_dia, eh_day_trade, somaQuantidades, somaMesSwing, somaMesDay,
      passoSomaSwing, passoSomaDay, aplicar_compensacao, calcular_vencimento,
      ajustarDiaUtil, Data.diaSemana, Data.anterior, Data.ordinal, daysBeforeYear,
      daysBeforeMonth, daysInMonth, isLeap, List.range_succ, List.filter_cons,
      List.filter_nil, side_buy_eq_sell_iff, side_sell_eq_buy_iff, max_def, min_def]
  · unfold recalcular_resultados
    cases recalcular_resultados_calculo exDoisMeses [] <;> rfl

/-- Claim C2, refuted by the code: fee proration divides by the fragment's
remaining quantity, not its original quantity.  On a buy of 100 shares with
fee 10 consumed by two 50-share sells, the two matches receive opening fees
5 and then 10 (the second match should receive 10 * (50 / 100) = 5), so the
prorated fees over the fully consumed fragment sum to 15, not to the
original 10: fees are duplicated when a fragment splits across matches. -/
theorem rateio_taxas_duplica :
    (calcular_operacoes_fechadas exDivisaoTaxas).map (fun f => f.taxas_abertura) = [5, 10]
    ∧ ((calcular_operacoes_fechadas exDivisaoTaxas).map (fun f => f.taxas_abertura)).sum = 15
    ∧ ((10 : ℚ) ≠ 10 * ((50 : ℚ) / 100) ∧ (15 : ℚ) ≠ 10) := by
  refine ⟨?_, ?_, by norm_num, by norm_num⟩
  · norm_num [calcular_operacoes_fechadas, tickersDe, processarTicker, ordenarOperacoes,
      List.insertionSort, List.orderedInsert, processarOperacao, drenarPendentes,
      criar_operacao_fechada_detalhada, exDivisaoTaxas, opLe, Data.ordinal, daysBeforeYear,
      daysBeforeMonth, daysInMonth, isLeap, List.range_succ]
  · norm_num [calcular_operacoes_fechadas, tickersDe, processarTicker, ordenarOperacoes,
      List.insertionSort, List.orderedInsert, processarOperacao, drenarPendentes,
      criar_operacao_fechada_detalhada, exDivisaoTaxas, opLe, Data.ordinal, daysBeforeYear,
      daysBeforeMonth, daysInMonth, isLeap, List.range_succ]

/-- Claim C7: one Portfolio Rebuilder fold step.  The average price is always
recomputed as total cost over quantity (zero when no shares remain); a
non-positive resulting quantity zeroes both total cost and average price; a
buy adds its quantity and its gross value plus fees; a sell subtracts its
quantity and removes average-price-before-the-sell times quantity from the
total cost; and the rebuilder folds one transaction at a time onto the
running per-ticker state. -/
theorem passo_carteira_spec (item : ItemCarteira) (op : Operacao) :
    ((passo_carteira item op).preco_medio
      = if 0 < (passo_carteira item op).quantidade
        then (passo_carteira item op).custo_total / ((passo_carteira item op).quantidade : ℚ)
        else 0)
    ∧ ((passo_carteira item op).quantidade ≤ 0 →
        (passo_carteira item op).custo_total = 0 ∧ (passo_carteira item op).preco_medio = 0)
    ∧ (op.operation = Side.buy →
        (passo_carteira item op).quantidade = item.quantidade + (op.quantity : Int)
        ∧ (0 < item.quantidade + (op.quantity : Int) →
            (passo_carteira item op).custo_total
              = item.custo_total + ((op.quantity : ℚ) * op.price + op.fees)))
    ∧ (op.operation = Side.sell →
        (passo_carteira item op).quantidade = item.quantidade - (op.quantity : Int)
        ∧ (0 < item.quantidade - (op.quantity : Int) →
            (passo_carteira item op).custo_total
              = item.custo_total - item.preco_medio * (op.quantity : ℚ)))
    ∧ (∀ ops : List Operacao,
        recalcular_carteira (ops ++ [op])
          = substituirItem (recalcular_carteira ops)
              (passo_carteira (buscarItem (recalcular_carteira ops) op.ticker) op)) := by
  refine ⟨?_, ?_, ?_, ?_, ?_⟩
  · cases hop : op.operation <;>
      simp only [passo_carteira, hop] <;>
      split <;>
      simp_all
  · cases hop : op.operation <;>
      simp only [passo_carteira, hop] <;>
      split <;>
      simp_all
  · intro hop
    simp only [passo_carteira, hop]
    constructor
    · split <;> simp
    · intro hq
      split <;> simp_all
  · intro hop
    have hpos : 0 < item.quantidade - (op.quantity : Int) →
        (0 < item.quantidade) := by
      intro h
      have : (0 : Int) ≤ (op.quantity : Int) := Int.ofNat_nonneg op.quantity
      omega
    simp only [passo_carteira, hop]
    constructor
    · split <;> simp
    · intro hq
      have h0 : 0 < item.quantidade := hpos hq
      have hns : ¬ item.quantidade - (op.quantity : Int) ≤ 0 := by omega
      simp [h0, hns, hq]
  · intro ops
    simp [recalcular_carteira, List.foldl_append]

/-- Application of the rebuild-step theorem to a concrete entry of 100 shares
at average price 10 and a sell of 40 shares. -/
theorem passo_carteira_spec_aplicacao :
    (passo_carteira exItemPETR4 exVenda40).quantidade
      = exItemPETR4.quantidade - (exVenda40.quantity : Int)
    ∧ (passo_carteira exItemPETR4 exVenda40).custo_total
      = exItemPETR4.custo_total - exItemPETR4.preco_medio * (exVenda40.quantity : ℚ)
    ∧ (passo_carteira exItemPETR4 exVenda40).preco_medio
      = if 0 < (passo_carteira exItemPETR4 exVenda40).quantidade
        then (passo_carteira exItemPETR4 exVenda40).custo_total
          / ((passo_carteira exItemPETR4 exVenda40).quantidade : ℚ)
        else 0 := by
  have h := passo_carteira_spec exItemPETR4 exVenda40
  have hsell := h.2.2.2.1 rfl
  exact ⟨hsell.1, hsell.2 (by norm_num [exItemPETR4, exVenda40]), h.1⟩

/-- Claim C9: a month is flagged exempt exactly when its swing sales total
(each sell counted net of fees) is at most 20000; a month selling exactly
20000.00 is exempt and one selling 20000.01 is not; and with the exemption
flag set the swing tax due is zero whatever the gain. -/
theorem isencao_swing_20000 :
    (∀ (carteira : List ItemCarteira) (mes_residual : Nat × Nat) (prejuizos : ℚ × ℚ)
        (ops_mes : List Operacao),
      ((processar_mes carteira mes_residual prejuizos ops_mes).2.isento_swing = true
        ↔ (processar_mes carteira mes_residual prejuizos ops_mes).2.vendas_swing ≤ 20000))
    ∧ ((processar_mes [] (2025, 3) (0, 0) exVenda20000).2.vendas_swing = 20000
      ∧ (processar_mes [] (2025, 3) (0, 0) exVenda20000).2.isento_swing = true)
    ∧ ((processar_mes [] (2025, 3) (0, 0) exVenda20000c).2.vendas_swing = 20000.01
      ∧ (processar_mes [] (2025, 3) (0, 0) exVenda20000c).2.isento_swing = false)
    ∧ (∀ ganho : ℚ, ir_devido_swing true ganho = 0) := by
  refine ⟨?_, ?_, ?_, fun _ => rfl⟩
  · intro carteira mes_residual prejuizos ops_mes
    exact decide_eq_true_iff
  · constructor <;>
      norm_num [processar_mes, resultadosDias, diasPresentes, diaLe, List.insertionSort,
        List.orderedInsert, calcular_resultado_dia, passo_resultado_dia, eh_day_trade,
        somaQuantidades, somaMesSwing, somaMesDay, passoSomaSwing, passoSomaDay,
        exVenda20000, List.filter_cons, List.filter_nil, side_sell_eq_buy_iff]
  · constructor <;>
      norm_num [processar_mes, resultadosDias, diasPresentes, diaLe, List.insertionSort,
        List.orderedInsert, calcular_resultado_dia, passo_resultado_dia, eh_day_trade,
        somaQuantidades, somaMesSwing, somaMesDay, passoSomaSwing, passoSomaDay,
        exVenda20000c, List.filter_cons, List.filter_nil, side_sell_eq_buy_iff]

/-- A swing sell whose ticker the portfolio lookup does not find contributes
its net sale value to the day's sales and nothing to the day's cost. -/
theorem passo_dia_sem_carteira (operacoes_dia : List Operacao) (carteira : List ItemCarteira)
    (acc : ResultadoSwing × ResultadoDay) (op : Operacao)
    (hop : op.operation = Side.sell)
    (hday : eh_day_trade operacoes_dia op.ticker = false)
    (hfind : carteira.find? (fun item => item.ticker == op.ticker) = none) :
    passo_resultado_dia operacoes_dia carteira acc op
      = ({ acc.1 with vendas := acc.1.vendas + ((op.quantity : ℚ) * op.price - op.fees) },
         acc.2) := by
  simp [passo_resultado_dia, hop, hday, hfind]

/-- A lone sell is never classified as a day trade (no bought quantity). -/
theorem venda_isolada_nao_day_trade (op : Operacao) (hop : op.operation = Side.sell) :
    eh_day_trade [op] op.ticker = false := by
  simp [eh_day_trade, hop, somaQuantidades, List.filter_cons, List.filter_nil,
    side_sell_eq_buy_iff]

/-- Claim C10: for a swing sell of a ticker with no entry in the current
portfolio snapshot, the day's swing cost contribution of that sell is zero,
and the full net sale value (sale value minus fees) is counted as that day's
swing gain: the per-operation step leaves the cost untouched and adds the net
value to sales, and a day holding just that sell ends with zero cost and
swing gain equal to the net sale value. -/
theorem venda_sem_carteira_custo_zero :
    (∀ (operacoes_dia : List Operacao) (carteira : List ItemCarteira)
        (acc : ResultadoSwing × ResultadoDay) (op : Operacao),
      op.operation = Side.sell →
      eh_day_trade operacoes_dia op.ticker = false →
      carteira.find? (fun item => item.ticker == op.ticker) = none →
      passo_resultado_dia operacoes_dia carteira acc op
        = ({ acc.1 with vendas := acc.1.vendas + ((op.quantity : ℚ) * op.price - op.fees) },
           acc.2))
    ∧ (∀ (op : Operacao) (carteira : List ItemCarteira),
      op.operation = Side.sell →
      carteira.find? (fun item => item.ticker == op.ticker) = none →
      (calcular_resultado_dia [op] carteira).1.custo = 0
      ∧ (calcular_resultado_dia [op] carteira).1.ganho_liquido
          = (op.quantity : ℚ) * op.price - op.fees) := by
  constructor
  · exact fun operacoes_dia carteira acc op hop hday hfind =>
      passo_dia_sem_carteira operacoes_dia carteira acc op hop hday hfind
  · intro op carteira hop hfind
    have hday := venda_isolada_nao_day_trade op hop
    have hstep := passo_dia_sem_carteira [op] carteira
      ({ vendas := 0, custo := 0, ganho_liquido := 0 },
       { vendas := 0, custo := 0, ganho_liquido := 0, irrf := 0 }) op hop hday hfind
    unfold calcular_resultado_dia
    simp only [List.foldl_cons, List.foldl_nil, hstep]
    norm_num

/-- Application of the missing-ticker theorem to a sell of VALE3 against a
portfolio holding only PETR4. -/
theorem venda_sem_carteira_custo_zero_aplicacao :
    (calcular_resultado_dia [exVendaSemCarteira] exCarteiraPETR4).1.custo = 0
    ∧ (calcular_resultado_dia [exVendaSemCarteira] exCarteiraPETR4).1.ganho_liquido = 199 := by
  have h := venda_sem_carteira_custo_zero.2 exVendaSemCarteira exCarteiraPETR4 rfl rfl
  refine ⟨h.1, ?_⟩
  rw [h.2]
  norm_num [exVendaSemCarteira]

theorem dia_ganho_swing (ops : List Operacao) (carteira : List ItemCarteira) :
    (calcular_resultado_dia ops carteira).1.ganho_liquido
      = (calcular_resultado_dia ops carteira).1.vendas
        - (calcular_resultado_dia ops carteira).1.custo := by
  unfold calcular_resultado_dia
  rcases ops.foldl (passo_resultado_dia ops carteira)
    ({ vendas := 0, custo := 0, ganho_liquido := 0 },
     { vendas := 0, custo := 0, ganho_liquido := 0, irrf := 0 }) with ⟨rs, rd⟩
  rfl

theorem dia_ganho_day (ops : List Operacao) (carteira : List ItemCarteira) :
    (calcular_resultado_dia ops carteira).2.ganho_liquido
      = (calcular_resultado_dia ops carteira).2.vendas
        - (calcular_resultado_dia ops carteira).2.custo := by
  unfold calcular_resultado_dia
  rcases ops.foldl (passo_resultado_dia ops carteira)
    ({ vendas := 0, custo := 0, ganho_liquido := 0 },
     { vendas := 0, custo := 0, ganho_liquido := 0, irrf := 0 }) with ⟨rs, rd⟩
  rfl

theorem somaMesSwing_foldl_ganho :
    ∀ (rs : List (ResultadoSwing × ResultadoDay)) (acc : ResultadoSwing),
      (∀ r ∈ rs, r.1.ganho_liquido = r.1.vendas - r.1.custo) →
      acc.ganho_liquido = acc.vendas - acc.custo →
      (rs.foldl passoSomaSwing acc).ganho_liquido
        = (rs.foldl passoSomaSwing acc).vendas - (rs.foldl passoSomaSwing acc).custo := by
  intro rs
  induction rs with
  | nil =>
    intro acc _ hacc
    simpa using hacc
  | cons r t ih =>
    intro acc h hacc
    simp only [List.foldl_cons]
    refine ih _ (fun x hx => h x (List.mem_cons_of_mem _ hx)) ?_
    have hr := h r (List.mem_cons_self _ _)
    simp only [passoSomaSwing, hr, hacc]
    ring

theorem somaMesDay_foldl_ganho :
    ∀ (rs : List (ResultadoSwing × ResultadoDay)) (acc : ResultadoDay),
      (∀ r ∈ rs, r.2.ganho_liquido = r.2.vendas - r.2.custo) →
      acc.ganho_liquido = acc.vendas - acc.custo →
      (rs.foldl passoSomaDay acc).ganho_liquido
        = (rs.foldl passoSomaDay acc).vendas - (rs.foldl passoSomaDay acc).custo := by
  intro rs
  induction rs with
  | nil =>
    intro acc _ hacc
    simpa using hacc
  | cons r t ih =>
    intro acc h hacc
    simp only [List.foldl_cons]
    refine ih _ (fun x hx => h x (List.mem_cons_of_mem _ hx)) ?_
    have hr := h r (List.mem_cons_self _ _)
    simp only [passoSomaDay, hr, hacc]
    ring

theorem ganhoSwingMes_eq_vendas_sub_custo (carteira : List ItemCarteira)
    (ops_mes : List Operacao) :
    ganhoSwingMes carteira ops_mes
      = (somaMesSwing (resultadosDias carteira ops_mes)).vendas
        - (somaMesSwing (resultadosDias carteira ops_mes)).custo := by
  unfold ganhoSwingMes somaMesSwing
  refine somaMesSwing_foldl_ganho _ _ ?_ (by norm_num)
  intro r hr
  rcases List.mem_map.mp hr with ⟨d, _, rfl⟩
  exact dia_ganho_swing _ _

theorem compensacao_formula (prej g : ℚ) (h : 0 ≤ prej) :
    (aplicar_compensacao prej g).2 = prej + max 0 (-g) - min prej (max 0 g) := by
  unfold aplicar_compensacao
  split_ifs with h1 h2
  · obtain ⟨hp, hg⟩ := h1
    rw [max_eq_left (by linarith : -g ≤ 0), max_eq_right (le_of_lt hg)]
    ring
  · rw [abs_of_neg h2, max_eq_right (by linarith : (0 : ℚ) ≤ -g),
      max_eq_left (le_of_lt h2), min_eq_right h]
    ring
  · have hg : 0 ≤ g := not_lt.mp h2
    rw [max_eq_left (by linarith : -g ≤ 0), max_eq_right hg]
    by_cases hp : 0 < prej
    · have hg0 : g ≤ 0 := by
        by_contra hc
        exact h1 ⟨hp, lt_of_not_ge hc⟩
      have : g = 0 := le_antisymm hg0 hg
      rw [this, min_eq_right h]
      ring
    · have : prej = 0 := le_antisymm (not_lt.mp hp) h
      rw [this, min_eq_left hg]
      ring

theorem compensacao_nonneg (prej g : ℚ) (h : 0 ≤ prej) :
    0 ≤ (aplicar_compensacao prej g).2 := by
  unfold aplicar_compensacao
  split_ifs with h1 h2
  · simp only
    have := min_le_left prej g
    linarith
  · simp only
    have := abs_nonneg g
    linarith
  · exact h

theorem processar_mes_prejuizos (carteira : List ItemCarteira) (mes_residual : Nat × Nat)
    (pS pD : ℚ) (ops_mes : List Operacao) :
    (processar_mes carteira mes_residual (pS, pD) ops_mes).2.prejuizo_acumulado_swing
      = (aplicar_compensacao pS (ganhoSwingMes carteira ops_mes)).2
    ∧ (processar_mes carteira mes_residual (pS, pD) ops_mes).2.prejuizo_acumulado_day
      = (aplicar_compensacao pD (ganhoDayMes carteira ops_mes)).2
    ∧ (processar_mes carteira mes_residual (pS, pD) ops_mes).1
      = ((aplicar_compensacao pS (ganhoSwingMes carteira ops_mes)).2,
         (aplicar_compensacao pD (ganhoDayMes carteira ops_mes)).2)
    ∧ (processar_mes carteira mes_residual (pS, pD) ops_mes).2.vendas_swing
      = (somaMesSwing (resultadosDias carteira ops_mes)).vendas
    ∧ (processar_mes carteira mes_residual (pS, pD) ops_mes).2.custo_swing
      = (somaMesSwing (resultadosDias carteira ops_mes)).custo := by
  exact ⟨rfl, rfl, rfl, rfl, rfl⟩

/-- Claim C6: loss carry-forward, per stream.  The accumulated-loss update of
one month satisfies end = start + max(0, -gain) - min(start, max(0, gain));
with positive accumulated loss and positive gain both shrink by the smaller
of the two; a negative gain joins the accumulated loss in absolute value and
the taxable gain is zeroed; the month record stores the updated accumulators,
whose swing net gain equals the stored sales minus cost, non-negativity of the
accumulators is preserved, and the month loop hands each month's final
accumulators to the next month as its starting ones. -/
theorem compensacao_prejuizo_relacao :
    (∀ prej g : ℚ, 0 ≤ prej →
      (aplicar_compensacao prej g).2 = prej + max 0 (-g) - min prej (max 0 g))
    ∧ (∀ prej g : ℚ, 0 < prej → 0 < g →
      aplicar_compensacao prej g = (g - min prej g, prej - min prej g))
    ∧ (∀ prej g : ℚ, g < 0 →
      aplicar_compensacao prej g = (0, prej + |g|))
    ∧ (∀ (carteira : List ItemCarteira) (mes_residual : Nat × Nat) (pS pD : ℚ)
        (ops_mes : List Operacao), 0 ≤ pS → 0 ≤ pD →
      ((processar_mes carteira mes_residual (pS, pD) ops_mes).2.prejuizo_acumulado_swing
          = pS + max 0 (-(ganhoSwingMes carteira ops_mes))
            - min pS (max 0 (ganhoSwingMes carteira ops_mes))
        ∧ (processar_mes carteira mes_residual (pS, pD) ops_mes).2.prejuizo_acumulado_day
          = pD + max 0 (-(ganhoDayMes carteira ops_mes))
            - min pD (max 0 (ganhoDayMes carteira ops_mes))
        ∧ ganhoSwingMes carteira ops_mes
          = (processar_mes carteira mes_residual (pS, pD) ops_mes).2.vendas_swing
            - (processar_mes carteira mes_residual (pS, pD) ops_mes).2.custo_swing
        ∧ (processar_mes carteira mes_residual (pS, pD) ops_mes).1
          = ((processar_mes carteira mes_residual (pS, pD) ops_mes).2.prejuizo_acumulado_swing,
             (processar_mes carteira mes_residual (pS, pD) ops_mes).2.prejuizo_acumulado_day)
        ∧ 0 ≤ (processar_mes carteira mes_residual (pS, pD) ops_mes).2.prejuizo_acumulado_swing
        ∧ 0 ≤ (processar_mes carteira mes_residual (pS, pD) ops_mes).2.prejuizo_acumulado_day))
    ∧ (∀ (carteira : List ItemCarteira) (mes_residual : Nat × Nat) (pS pD : ℚ)
        (m : List Operacao) (ms : List (List Operacao)),
      processar_meses carteira mes_residual (m :: ms) pS pD
        = (processar_mes carteira mes_residual (pS, pD) m).2
          :: processar_meses carteira mes_residual ms
              (processar_mes carteira mes_residual (pS, pD) m).1.1
              (processar_mes carteira mes_residual (pS, pD) m).1.2) := by
  refine ⟨compensacao_formula, ?_, ?_, ?_, ?_⟩
  · intro prej g hp hg
    unfold aplicar_compensacao
    rw [if_pos ⟨hp, hg⟩]
  · intro prej g hg
    unfold aplicar_compensacao
    rw [if_neg (by rintro ⟨_, h⟩; linarith), if_pos hg]
  · intro carteira mes_residual pS pD ops_mes hS hD
    obtain ⟨e1, e2, e3, e4, e5⟩ := processar_mes_prejuizos carteira mes_residual pS pD ops_mes
    refine ⟨?_, ?_, ?_, ?_, ?_, ?_⟩
    · rw [e1, compensacao_formula _ _ hS]
    · rw [e2, compensacao_formula _ _ hD]
    · rw [e4, e5, ganhoSwingMes_eq_vendas_sub_custo]
    · rw [e3, e1, e2]
    · rw [e1]
      exact compensacao_nonneg _ _ hS
    · rw [e2]
      exact compensacao_nonneg _ _ hD
  · intro carteira mes_residual pS pD m ms
    rfl

/-- Application of the loss carry-forward theorem at accumulated loss 2 with
gains 3 and -5, and at a concrete month with empty starting accumulators. -/
theorem compensacao_prejuizo_relacao_aplicacao :
    (aplicar_compensacao 2 3).2 = 2 + max 0 (-(3 : ℚ)) - min 2 (max 0 3)
    ∧ aplicar_compensacao 2 3 = ((3 : ℚ) - min 2 3, (2 : ℚ) - min 2 3)
    ∧ aplicar_compensacao 2 (-5) = (0, 2 + |(-5 : ℚ)|)
    ∧ (processar_mes [] (2025, 3) (0, 0) exVenda20000).2.prejuizo_acumulado_swing
        = 0 + max 0 (-(ganhoSwingMes [] exVenda20000))
          - min 0 (max 0 (ganhoSwingMes [] exVenda20000)) := by
  have h := compensacao_prejuizo_relacao
  exact ⟨h.1 2 3 (by norm_num), h.2.1 2 3 (by norm_num) (by norm_num),
    h.2.2.1 2 (-5) (by norm_num),
    (h.2.2.2.1 [] (2025, 3) 0 0 exVenda20000 (by norm_num) (by norm_num)).1⟩

end IRApp
